import Mathlib

/-!
Shallow embedding of `pandas/core/ops/methods.py`: the layer that builds the
flex arithmetic/comparison method table and the in-place special methods for
the Series (1-D) and DataFrame (2-D) container classes, and pins them onto
those classes.

Method tables are Python dicts from public operation name to a bound callable.
We model a bound callable symbolically as the pair (wrapper factory, raw
primitive) that the source passes to construct it: the wrapper factories
(`flex_method_SERIES`, `flex_arith_method_FRAME`, `flex_comp_method_FRAME`)
and the raw primitives (`operator.add`, `roperator.radd`, ..., built-in
`divmod`) are external collaborators, treated as opaque tags.  Two table
entries built from the same wrapper and the same primitive are the very same
Python object, hence extensionally equal as functions of the operands.
-/

namespace PandasOps

/-- Modelled from the spec: the capability kind of the target class.
`pandas.core.dtypes.generic.ABCSeries` / `ABCDataFrame` are not under `src/`;
the spec directs that the `issubclass` tests become a capability tag
{OneDimensional, TwoDimensional}, with `other` for a class that is neither. -/
inductive ClsKind
| series
| frame
| other
deriving DecidableEq

/-- Modelled from the spec: the three operation-wrapper factories imported by
`_get_method_wrappers` from `pandas.core.ops` (not under `src/`); they are
opaque, already-correct collaborators, so we keep them as tags. -/
inductive Wrapper
| flexMethodSERIES
| flexArithFRAME
| flexCompFRAME
deriving DecidableEq

/-- Modelled from the spec: the raw binary primitives handed to the wrapper
factories — `operator.add`, `operator.sub`, ..., the reflected versions from
`pandas.core.ops.roperator` (not under `src/`), built-in `divmod`, and the
comparison primitives `operator.eq`, ... -/
inductive PrimOp
| add | radd | sub | rsub | mul | rmul
| truediv | rtruediv | floordiv | rfloordiv
| mod | rmod | pow | rpow
| divmod | rdivmod
| eq | ne | lt | gt | le | ge
deriving DecidableEq

/-- A table entry: which wrapper factory was applied to which primitive. -/
structure BoundMethod where
  wrapper : Wrapper
  prim : PrimOp
deriving DecidableEq

/-- The Python errors this layer can raise while building tables:
`KeyError` on a missing dict key, `UnboundLocalError` when
`_get_method_wrappers` falls through both `issubclass` branches, and
`AssertionError` from the bool-flex opt-out assertion. -/
inductive PyError
| keyError (key : String)
| unboundLocal
| assertionError
deriving DecidableEq

/-- A Python dict from operation name to bound method, as an insertion-ordered
association list with unique keys. -/
abbrev MethodTable := List (String × BoundMethod)

/-- Dict key membership: `k in d`. -/
def tblContains (m : MethodTable) (k : String) : Bool :=
  m.any (fun p => p.1 == k)

/-- Dict write `d[k] = v`: overwrite in place if the key exists, else append. -/
def tblSet (m : MethodTable) (k : String) (v : BoundMethod) : MethodTable :=
  if tblContains m k then m.map (fun p => if p.1 == k then (k, v) else p)
  else m ++ [(k, v)]

/-- `d.update(...)`: insert the pairs left to right. -/
def tblSetMany (m : MethodTable) (l : List (String × BoundMethod)) : MethodTable :=
  l.foldl (fun acc p => tblSet acc p.1 p.2) m

/-- Dict read `d[k]`, as an `Option`. -/
def tblGet (m : MethodTable) (k : String) : Option BoundMethod :=
  (m.find? (fun p => p.1 == k)).map (fun p => p.2)

/-- Python `s.strip("_")` (and `s.strip("__")`, since the argument is a set of
characters): drop every leading and trailing underscore. -/
def pyStripUnderscore (s : String) : String :=
  String.mk (((s.toList.dropWhile (fun ch => ch == '_')).reverse.dropWhile
    (fun ch => ch == '_')).reverse)

/-- `_get_method_wrappers` (methods.py lines 20-49): Series classes get the
single unified factory `flex_method_SERIES` for both positions, DataFrame
classes get `flex_arith_method_FRAME` and `flex_comp_method_FRAME`; any other
class leaves `arith_flex` unbound, so the `return` raises
`UnboundLocalError`. -/
def getMethodWrappers (cls : ClsKind) : Except PyError (Wrapper × Wrapper) :=
  match cls with
  | ClsKind.series => Except.ok (Wrapper.flexMethodSERIES, Wrapper.flexMethodSERIES)
  | ClsKind.frame => Except.ok (Wrapper.flexArithFRAME, Wrapper.flexCompFRAME)
  | ClsKind.other => Except.error PyError.unboundLocal

/-- `_create_methods` (methods.py lines 133-179): build the flex table —
fourteen arithmetic entries, the div/rdiv unification, divmod/rdivmod for
Series only, six comparison entries, then strip underscores off every key. -/
def createMethods (cls : ClsKind) (arith comp : Wrapper) : Except PyError MethodTable :=
  let have_divmod := cls = ClsKind.series
  let new_methods : MethodTable := tblSetMany []
    [("add", ⟨arith, PrimOp.add⟩), ("radd", ⟨arith, PrimOp.radd⟩),
     ("sub", ⟨arith, PrimOp.sub⟩), ("mul", ⟨arith, PrimOp.mul⟩),
     ("truediv", ⟨arith, PrimOp.truediv⟩), ("floordiv", ⟨arith, PrimOp.floordiv⟩),
     ("mod", ⟨arith, PrimOp.mod⟩), ("pow", ⟨arith, PrimOp.pow⟩),
     ("rmul", ⟨arith, PrimOp.rmul⟩), ("rsub", ⟨arith, PrimOp.rsub⟩),
     ("rtruediv", ⟨arith, PrimOp.rtruediv⟩), ("rfloordiv", ⟨arith, PrimOp.rfloordiv⟩),
     ("rpow", ⟨arith, PrimOp.rpow⟩), ("rmod", ⟨arith, PrimOp.rmod⟩)]
  match tblGet new_methods "truediv" with
  | none => Except.error (PyError.keyError "truediv")
  | some tv =>
    let new_methods := tblSet new_methods "div" tv
    match tblGet new_methods "rtruediv" with
    | none => Except.error (PyError.keyError "rtruediv")
    | some rtv =>
      let new_methods := tblSet new_methods "rdiv" rtv
      let new_methods :=
        if have_divmod then
          tblSet (tblSet new_methods "divmod" ⟨arith, PrimOp.divmod⟩)
            "rdivmod" ⟨arith, PrimOp.rdivmod⟩
        else new_methods
      let new_methods := tblSetMany new_methods
        [("eq", ⟨comp, PrimOp.eq⟩), ("ne", ⟨comp, PrimOp.ne⟩),
         ("lt", ⟨comp, PrimOp.lt⟩), ("gt", ⟨comp, PrimOp.gt⟩),
         ("le", ⟨comp, PrimOp.le⟩), ("ge", ⟨comp, PrimOp.ge⟩)]
      Except.ok (tblSetMany []
        (new_methods.map (fun p => (pyStripUnderscore p.1, p.2))))

/-- The opt-out assertion condition of `add_flex_arithmetic_methods` line 128:
`any(kname in new_methods for kname in ("ror_", "rxor", "rand_"))`. -/
def boolOptOutViolated (m : MethodTable) : Bool :=
  ["ror_", "rxor", "rand_"].any (fun kname => tblContains m kname)

/-- `add_flex_arithmetic_methods` (methods.py lines 108-130): build the flex
table, copy the multiply/subtract/divide aliases, and assert the bool-flex
opt-out; attachment (`_add_methods`) just pins each produced entry. -/
def addFlexArithmeticMethods (cls : ClsKind) : Except PyError MethodTable :=
  match getMethodWrappers cls with
  | Except.error e => Except.error e
  | Except.ok (flex_arith_method, flex_comp_method) =>
    match createMethods cls flex_arith_method flex_comp_method with
    | Except.error e => Except.error e
    | Except.ok new_methods =>
      match tblGet new_methods "mul", tblGet new_methods "sub",
          tblGet new_methods "div" with
      | some mulv, some subv, some divv =>
        let new_methods := tblSetMany new_methods
          [("multiply", mulv), ("subtract", subv), ("divide", divv)]
        if boolOptOutViolated new_methods then Except.error PyError.assertionError
        else Except.ok new_methods
      | none, _, _ => Except.error (PyError.keyError "mul")
      | _, none, _ => Except.error (PyError.keyError "sub")
      | _, _, none => Except.error (PyError.keyError "div")

/-- The flex table actually produced for the Series kind. -/
def seriesFlexTable : MethodTable :=
  match addFlexArithmeticMethods ClsKind.series with
  | Except.ok t => t
  | Except.error _ => []

/-- The flex table actually produced for the DataFrame kind. -/
def frameFlexTable : MethodTable :=
  match addFlexArithmeticMethods ClsKind.frame with
  | Except.ok t => t
  | Except.error _ => []

/-- The naming transform of `_wrap_inplace_method` (methods.py lines 81-82):
`name = method.__name__.strip("__")` then `f.__name__ = f"__i{name}__"`. -/
def wrapInplaceName (methodName : String) : String :=
  "__i" ++ pyStripUnderscore methodName ++ "__"

/-- The in-place table built by `add_special_arithmetic_methods` (methods.py
lines 86-103), as (produced dict key, wrapped non-mutating method's name):
the wrapped methods are `cls.__add__`, `cls.__sub__`, ... obtained from
`OpsMixin` (not under `src/`), whose `__name__` is the attribute name. -/
def specialNewMethods : List (String × String) :=
  [("__iadd__", "__add__"), ("__isub__", "__sub__"), ("__imul__", "__mul__"),
   ("__itruediv__", "__truediv__"), ("__ifloordiv__", "__floordiv__"),
   ("__imod__", "__mod__"), ("__ipow__", "__pow__"),
   ("__iand__", "__and__"), ("__ior__", "__or__"), ("__ixor__", "__xor__")]

/-- Modelled from the spec: the observable state of a 1-D labeled container —
its index labels, its values, and whether it currently holds a cacher linkage
(a live derived-view relationship).  The container internals
(`Series._reset_cacher`, `Series._update_inplace`, `reindex_like`) are not
under `src/`. -/
structure SeriesObj where
  index : List Int
  values : List Int
  cacher : Bool
deriving DecidableEq

/-- A heap of container objects, so that object identity is an address and
mutation is an update at that address. -/
abbrev ObjStore := Nat → SeriesObj

/-- Modelled from the spec: `self._reset_cacher()` clears the cacher linkage
and nothing else. -/
def resetCacher (s : SeriesObj) : SeriesObj := { s with cacher := false }

/-- Modelled from the spec: `self._update_inplace(res, verify_is_copy=False)`
commits the result's index and values into the receiver's storage in place
(skipping the is-copy check, which has no observable in this state model). -/
def updateInplace (s res : SeriesObj) : SeriesObj :=
  { s with index := res.index, values := res.values }

/-- Write one object slot of the heap. -/
def setObj (σ : ObjStore) (i : Nat) (v : SeriesObj) : ObjStore :=
  fun j => if j = i then v else σ j

/-- The inner wrapper `f` of `_wrap_inplace_method` (methods.py lines 69-79):
`result = method(self, other)`; on success `self._reset_cacher()`, then
`self._update_inplace(result.reindex_like(self, copy=False), verify_is_copy
=False)`, then `return self`.  `method` is the already-bound non-mutating
operation and `reindexTo` is `reindex_like` abstracted to a realignment of
the result against the receiver's current index (modelled from the spec:
both live outside `src/`); any exception from `method` propagates, leaving
the heap untouched. -/
def inplaceWrap {ε : Type} (method : SeriesObj → SeriesObj → Except ε SeriesObj)
    (reindexTo : SeriesObj → List Int → SeriesObj)
    (σ : ObjStore) (self : Nat) (other : SeriesObj) : ObjStore × Except ε Nat :=
  match method (σ self) other with
  | Except.error e => (σ, Except.error e)
  | Except.ok result =>
    let σ1 := setObj σ self (resetCacher (σ self))
    let aligned := reindexTo result (σ1 self).index
    let σ2 := setObj σ1 self (updateInplace (σ1 self) aligned)
    (σ2, Except.ok self)

/-- Value equality of containers: same index and same values (the cacher
linkage is bookkeeping, not part of the held value). -/
def SeriesObj.sameValue (a b : SeriesObj) : Prop :=
  a.index = b.index ∧ a.values = b.values

/-- Follows the spec's words (the §8 in-place law, right-hand path): call the
non-mutating form on the pre-operation receiver, realign the result to the
receiver's pre-operation labels, and commit it back into the receiver. -/
def specComputeRealignCommit {ε : Type}
    (method : SeriesObj → SeriesObj → Except ε SeriesObj)
    (reindexTo : SeriesObj → List Int → SeriesObj)
    (x y : SeriesObj) : Except ε SeriesObj :=
  match method x y with
  | Except.error e => Except.error e
  | Except.ok res => Except.ok (updateInplace x (reindexTo res x.index))

/-- Concrete container for witnesses; note it holds a cacher linkage. -/
def egSeries : SeriesObj := { index := [1, 2, 3], values := [10, 20, 30], cacher := true }

/-- Concrete aligned operand for witnesses. -/
def egOther : SeriesObj := { index := [1, 2, 3], values := [1, 1, 1], cacher := false }

/-- Concrete misaligned operand for the error-path witnesses. -/
def egOtherBad : SeriesObj := { index := [4, 5], values := [7, 8], cacher := false }

/-- Concrete heap for witnesses: every address holds `egSeries`. -/
def egStore : ObjStore := fun _ => egSeries

/-- Modelled from the spec, witness instance only: a non-mutating elementwise
addition that succeeds on equal indexes and raises otherwise. -/
def egAdd (a b : SeriesObj) : Except String SeriesObj :=
  if a.index = b.index then
    Except.ok { index := a.index,
                values := List.zipWith (fun x y => x + y) a.values b.values,
                cacher := false }
  else Except.error "unaligned"

/-- Modelled from the spec, witness instance only: realign a result to a
target index, looking each label up in the result (0 where absent). -/
def egReindexTo (res : SeriesObj) (idx : List Int) : SeriesObj :=
  { index := idx,
    values := idx.map (fun l => (List.lookup l (res.index.zip res.values)).getD 0),
    cacher := res.cacher }

/-- The value `egAdd egSeries egOther` computes, for the witnesses. -/
def egResult : SeriesObj := { index := [1, 2, 3], values := [11, 21, 31], cacher := false }

/-- The expected shape of the fourteen arithmetic entries and six comparison
entries of a flex table built with arithmetic wrapper `a` and comparison
wrapper `c`: each of the seven arithmetic names carries both a canonical and
a reflected entry, each comparison name only a canonical one. -/
def arithCompEntriesSpec (a c : Wrapper) (t : MethodTable) : Prop :=
  tblGet t "add" = some ⟨a, PrimOp.add⟩ ∧ tblGet t "radd" = some ⟨a, PrimOp.radd⟩ ∧
  tblGet t "sub" = some ⟨a, PrimOp.sub⟩ ∧ tblGet t "rsub" = some ⟨a, PrimOp.rsub⟩ ∧
  tblGet t "mul" = some ⟨a, PrimOp.mul⟩ ∧ tblGet t "rmul" = some ⟨a, PrimOp.rmul⟩ ∧
  tblGet t "truediv" = some ⟨a, PrimOp.truediv⟩ ∧
  tblGet t "rtruediv" = some ⟨a, PrimOp.rtruediv⟩ ∧
  tblGet t "floordiv" = some ⟨a, PrimOp.floordiv⟩ ∧
  tblGet t "rfloordiv" = some ⟨a, PrimOp.rfloordiv⟩ ∧
  tblGet t "mod" = some ⟨a, PrimOp.mod⟩ ∧ tblGet t "rmod" = some ⟨a, PrimOp.rmod⟩ ∧
  tblGet t "pow" = some ⟨a, PrimOp.pow⟩ ∧ tblGet t "rpow" = some ⟨a, PrimOp.rpow⟩ ∧
  tblGet t "eq" = some ⟨c, PrimOp.eq⟩ ∧ tblGet t "ne" = some ⟨c, PrimOp.ne⟩ ∧
  tblGet t "lt" = some ⟨c, PrimOp.lt⟩ ∧ tblGet t "gt" = some ⟨c, PrimOp.gt⟩ ∧
  tblGet t "le" = some ⟨c, PrimOp.le⟩ ∧ tblGet t "ge" = some ⟨c, PrimOp.ge⟩ ∧
  tblContains t "req" = false ∧ tblContains t "rne" = false ∧
  tblContains t "rlt" = false ∧ tblContains t "rgt" = false ∧
  tblContains t "rle" = false ∧ tblContains t "rge" = false

/-- The expected alias structure of a flex table: multiply/subtract/divide/
div/rdiv hold the very same bound method as mul/sub/truediv/truediv/rtruediv
(the same Python object, hence equal on all operands), and the alias targets
exist. -/
def aliasEntriesSpec (t : MethodTable) : Prop :=
  tblGet t "multiply" = tblGet t "mul" ∧
  tblGet t "subtract" = tblGet t "sub" ∧
  tblGet t "divide" = tblGet t "truediv" ∧
  tblGet t "div" = tblGet t "truediv" ∧
  tblGet t "rdiv" = tblGet t "rtruediv" ∧
  (tblGet t "mul").isSome = true ∧ (tblGet t "sub").isSome = true ∧
  (tblGet t "truediv").isSome = true ∧ (tblGet t "rtruediv").isSome = true

instance (a c : Wrapper) (t : MethodTable) : Decidable (arithCompEntriesSpec a c t) := by
  unfold arithCompEntriesSpec
  infer_instance

instance (t : MethodTable) : Decidable (aliasEntriesSpec t) := by
  unfold aliasEntriesSpec
  infer_instance

/-! ## Helper lemmas: the two builds evaluate, the third faults -/

theorem build_series_eq :
    addFlexArithmeticMethods ClsKind.series = Except.ok seriesFlexTable := rfl

theorem build_frame_eq :
    addFlexArithmeticMethods ClsKind.frame = Except.ok frameFlexTable := rfl

theorem build_other_eq :
    addFlexArithmeticMethods ClsKind.other = Except.error PyError.unboundLocal := rfl

theorem wrappers_series_eq :
    getMethodWrappers ClsKind.series =
      Except.ok (Wrapper.flexMethodSERIES, Wrapper.flexMethodSERIES) := rfl

theorem wrappers_frame_eq :
    getMethodWrappers ClsKind.frame =
      Except.ok (Wrapper.flexArithFRAME, Wrapper.flexCompFRAME) := rfl

/-! ## Claim theorems -/

/-- C1: for every non-mutating operation, realignment, heap, receiver and
operand on which the non-mutating operation succeeds, the in-place wrapper
leaves the receiver holding a value equal to the compute-then-realign-then-
commit path of the spec: the non-mutating result, realigned to the
receiver's pre-operation index, committed into the receiver. -/
theorem inplace_law_refines {ε : Type}
    (method : SeriesObj → SeriesObj → Except ε SeriesObj)
    (reindexTo : SeriesObj → List Int → SeriesObj)
    (σ : ObjStore) (self : Nat) (other result : SeriesObj)
    (h : method (σ self) other = Except.ok result) :
    specComputeRealignCommit method reindexTo (σ self) other =
      Except.ok (updateInplace (σ self) (reindexTo result (σ self).index)) ∧
    SeriesObj.sameValue ((inplaceWrap method reindexTo σ self other).1 self)
      (updateInplace (σ self) (reindexTo result (σ self).index)) := by
  constructor
  · simp [specComputeRealignCommit, h]
  · simp [inplaceWrap, h, setObj, resetCacher, updateInplace, SeriesObj.sameValue]

/-- Witness for C1 at a concrete heap and operand. -/
theorem inplace_law_refines_witness :
    specComputeRealignCommit egAdd egReindexTo (egStore 0) egOther =
      Except.ok (updateInplace (egStore 0) (egReindexTo egResult (egStore 0).index)) ∧
    SeriesObj.sameValue ((inplaceWrap egAdd egReindexTo egStore 0 egOther).1 0)
      (updateInplace (egStore 0) (egReindexTo egResult (egStore 0).index)) :=
  inplace_law_refines egAdd egReindexTo egStore 0 egOther egResult rfl

/-- C2: whenever the wrapped non-mutating operation succeeds, the in-place
wrapper returns exactly the receiver's object identity (the address it was
invoked on), not a fresh container and not the intermediate result. -/
theorem inplace_identity {ε : Type}
    (method : SeriesObj → SeriesObj → Except ε SeriesObj)
    (reindexTo : SeriesObj → List Int → SeriesObj)
    (σ : ObjStore) (self : Nat) (other result : SeriesObj)
    (h : method (σ self) other = Except.ok result) :
    (inplaceWrap method reindexTo σ self other).2 = Except.ok self := by
  simp [inplaceWrap, h]

/-- Witness for C2 at a concrete heap and operand. -/
theorem inplace_identity_witness :
    (inplaceWrap egAdd egReindexTo egStore 0 egOther).2 = Except.ok 0 :=
  inplace_identity egAdd egReindexTo egStore 0 egOther egResult rfl

/-- C9: whenever the wrapped non-mutating operation raises, the very same
error comes out of the in-place wrapper, with the heap untouched — the
adapter catches nothing, adds no handling and retries nothing. -/
theorem inplace_error_propagates {ε : Type}
    (method : SeriesObj → SeriesObj → Except ε SeriesObj)
    (reindexTo : SeriesObj → List Int → SeriesObj)
    (σ : ObjStore) (self : Nat) (other : SeriesObj) (e : ε)
    (h : method (σ self) other = Except.error e) :
    inplaceWrap method reindexTo σ self other = (σ, Except.error e) := by
  simp [inplaceWrap, h]

/-- Witness for C9 at a concrete misaligned operand. -/
theorem inplace_error_propagates_witness :
    inplaceWrap egAdd egReindexTo egStore 0 egOtherBad =
      (egStore, Except.error "unaligned") :=
  inplace_error_propagates egAdd egReindexTo egStore 0 egOtherBad "unaligned" rfl

/-- C10: whenever the wrapped non-mutating operation raises, the receiver is
left exactly as it was — in particular its cacher linkage is not reset and
nothing is committed into its storage, because the operation is invoked
before either of those steps. -/
theorem inplace_error_receiver_unchanged {ε : Type}
    (method : SeriesObj → SeriesObj → Except ε SeriesObj)
    (reindexTo : SeriesObj → List Int → SeriesObj)
    (σ : ObjStore) (self : Nat) (other : SeriesObj) (e : ε)
    (h : method (σ self) other = Except.error e) :
    (inplaceWrap method reindexTo σ self other).1 self = σ self ∧
    ((inplaceWrap method reindexTo σ self other).1 self).cacher = (σ self).cacher := by
  simp [inplaceWrap, h]

/-- Witness for C10: on the failing input, the receiver (which held a cacher
linkage) still holds it. -/
theorem inplace_error_receiver_unchanged_witness :
    (inplaceWrap egAdd egReindexTo egStore 0 egOtherBad).1 0 = egStore 0 ∧
    ((inplaceWrap egAdd egReindexTo egStore 0 egOtherBad).1 0).cacher = (egStore 0).cacher :=
  inplace_error_receiver_unchanged egAdd egReindexTo egStore 0 egOtherBad "unaligned" rfl

/-- C3 counterexample: the in-place table has exactly ten entries, not
fourteen as the claim counts its fixed subset. -/
theorem inplace_subset_count_counterexample :
    specialNewMethods.length = 10 ∧ specialNewMethods.length ≠ 14 := by decide

/-- C3 as amended: the in-place adapter produces mutating forms for exactly
the ten operations add, sub, mul, truediv, floordiv, mod, pow, and, or, xor,
each under the `__i<name>__` form produced by the source's naming transform,
and none for any comparison operation or for divmod. -/
theorem inplace_table_exactly_ten :
    specialNewMethods.map Prod.fst =
      ["__iadd__", "__isub__", "__imul__", "__itruediv__", "__ifloordiv__",
       "__imod__", "__ipow__", "__iand__", "__ior__", "__ixor__"] ∧
    specialNewMethods.map Prod.snd =
      ["__add__", "__sub__", "__mul__", "__truediv__", "__floordiv__",
       "__mod__", "__pow__", "__and__", "__or__", "__xor__"] ∧
    specialNewMethods.all (fun p => p.1 == wrapInplaceName p.2) = true ∧
    specialNewMethods.length = 10 ∧
    (["__ieq__", "__ine__", "__ilt__", "__igt__", "__ile__", "__ige__",
      "__idivmod__"].all
      (fun n => specialNewMethods.all (fun p => p.1 != n))) = true := by decide

/-- C4: the built flex table carries "divmod" and "rdivmod" exactly when the
container kind is the 1-D Series kind; the 2-D Frame kind gets neither. -/
theorem divmod_entries_iff_series (cls : ClsKind) (t : MethodTable)
    (h : addFlexArithmeticMethods cls = Except.ok t) :
    (tblContains t "divmod" = true ↔ cls = ClsKind.series) ∧
    (tblContains t "rdivmod" = true ↔ cls = ClsKind.series) := by
  cases cls
  · rw [build_series_eq] at h
    injection h with h1
    subst h1
    decide
  · rw [build_frame_eq] at h
    injection h with h1
    subst h1
    decide
  · rw [build_other_eq] at h
    exact Except.noConfusion h

/-- Witness for C4 at the 2-D Frame kind: neither pair entry is present. -/
theorem divmod_entries_iff_series_witness :
    (tblContains frameFlexTable "divmod" = true ↔ ClsKind.frame = ClsKind.series) ∧
    (tblContains frameFlexTable "rdivmod" = true ↔ ClsKind.frame = ClsKind.series) :=
  divmod_entries_iff_series ClsKind.frame frameFlexTable rfl

/-- C5: for every supported container kind, each of the seven arithmetic
operations contributes a canonical and a reflected entry under the kind's
arithmetic wrapper, and each of the six comparisons contributes only a
canonical entry under the kind's comparison wrapper, with no reflected
comparison entry in the table. -/
theorem flex_arith_comp_entries (cls : ClsKind) (t : MethodTable) (a c : Wrapper)
    (hb : addFlexArithmeticMethods cls = Except.ok t)
    (hw : getMethodWrappers cls = Except.ok (a, c)) :
    arithCompEntriesSpec a c t := by
  cases cls
  · rw [build_series_eq] at hb
    injection hb with h1
    subst h1
    rw [wrappers_series_eq] at hw
    injection hw with h2
    injection h2 with ha hc
    subst ha
    subst hc
    decide
  · rw [build_frame_eq] at hb
    injection hb with h1
    subst h1
    rw [wrappers_frame_eq] at hw
    injection hw with h2
    injection h2 with ha hc
    subst ha
    subst hc
    decide
  · rw [build_other_eq] at hb
    exact Except.noConfusion hb

/-- Witness for C5 at the Series kind and its unified wrapper. -/
theorem flex_arith_comp_entries_witness :
    arithCompEntriesSpec Wrapper.flexMethodSERIES Wrapper.flexMethodSERIES
      seriesFlexTable :=
  flex_arith_comp_entries ClsKind.series seriesFlexTable
    Wrapper.flexMethodSERIES Wrapper.flexMethodSERIES rfl rfl

/-- C6: the alias entries multiply/subtract/divide/div/rdiv of every built
flex table hold the very same bound method as mul/sub/truediv/truediv/
rtruediv — the same callable object, so equal on all operands — and the
alias targets exist. -/
theorem flex_alias_entries (cls : ClsKind) (t : MethodTable)
    (h : addFlexArithmeticMethods cls = Except.ok t) :
    aliasEntriesSpec t := by
  cases cls
  · rw [build_series_eq] at h
    injection h with h1
    subst h1
    decide
  · rw [build_frame_eq] at h
    injection h with h1
    subst h1
    decide
  · rw [build_other_eq] at h
    exact Except.noConfusion h

/-- Witness for C6 at the Series kind. -/
theorem flex_alias_entries_witness : aliasEntriesSpec seriesFlexTable :=
  flex_alias_entries ClsKind.series seriesFlexTable rfl

/-- C7 counterexample: a produced table that did contain an entry named
"ror" would not trip the build assertion — the assertion tests the
pre-strip spellings "ror_", "rxor", "rand_" against the post-strip keys, so
it does not in fact guard the name "ror". -/
theorem flex_assert_ignores_ror :
    tblContains (tblSet seriesFlexTable "ror"
      ⟨Wrapper.flexMethodSERIES, PrimOp.radd⟩) "ror" = true ∧
    boolOptOutViolated (tblSet seriesFlexTable "ror"
      ⟨Wrapper.flexMethodSERIES, PrimOp.radd⟩) = false := by decide

/-- C7 as amended: for either supported kind the build succeeds with no
entry named ror, rxor or rand and the opt-out assertion passes; the
assertion literally checks the names "ror_", "rxor", "rand_", so of the
three bare names only a table containing "rxor" would abort construction. -/
theorem flex_no_bool_reflected :
    addFlexArithmeticMethods ClsKind.series = Except.ok seriesFlexTable ∧
    addFlexArithmeticMethods ClsKind.frame = Except.ok frameFlexTable ∧
    tblContains seriesFlexTable "ror" = false ∧
    tblContains seriesFlexTable "rxor" = false ∧
    tblContains seriesFlexTable "rand" = false ∧
    tblContains frameFlexTable "ror" = false ∧
    tblContains frameFlexTable "rxor" = false ∧
    tblContains frameFlexTable "rand" = false ∧
    boolOptOutViolated seriesFlexTable = false ∧
    boolOptOutViolated frameFlexTable = false ∧
    boolOptOutViolated (tblSet seriesFlexTable "rxor"
      ⟨Wrapper.flexMethodSERIES, PrimOp.radd⟩) = true ∧
    boolOptOutViolated (tblSet seriesFlexTable "ror_"
      ⟨Wrapper.flexMethodSERIES, PrimOp.radd⟩) = true ∧
    boolOptOutViolated (tblSet seriesFlexTable "rand_"
      ⟨Wrapper.flexMethodSERIES, PrimOp.radd⟩) = true :=
  ⟨rfl, rfl, by decide, by decide, by decide, by decide, by decide, by decide,
   by decide, by decide, by decide, by decide, by decide⟩

/-- C8: wrapper lookup returns the single unified factory twice for the 1-D
Series kind, two distinct factories for the 2-D Frame kind, and fails fast
(the `return` raises, here an unrecognized-type fault) for any other kind
rather than silently returning a default pair. -/
theorem wrapper_lookup_fail_fast :
    getMethodWrappers ClsKind.series =
      Except.ok (Wrapper.flexMethodSERIES, Wrapper.flexMethodSERIES) ∧
    getMethodWrappers ClsKind.frame =
      Except.ok (Wrapper.flexArithFRAME, Wrapper.flexCompFRAME) ∧
    getMethodWrappers ClsKind.other = Except.error PyError.unboundLocal ∧
    Wrapper.flexArithFRAME ≠ Wrapper.flexCompFRAME :=
  ⟨rfl, rfl, rfl, by decide⟩

end PandasOps
